import Mathlib

/-!
Verification of the `ibm-products` component library against its
natural-language specification.

The repository contains three independent view components:

* `ExportModal` (TypeScript/React): a modal dialog collecting an export
  filename, either as free text (or password) or by choosing among
  preformatted extension options, with validation against an allow-list of
  extensions and three host-driven outcome flags (loading / error /
  successful).
* `ModifiedTabs` (JavaScript/React): a tab strip rendering one tab per
  entry plus a trailing "new tab" affordance, delegating close/create
  intents to optional host callbacks.
* `TagOverflow`: only its documentation is present in the sources; its
  toggletip behaviour is modelled from the spec.

The embedding below translates, function by function, the logic of these
components: pure handlers become Lean functions, the React `useState`
fields become an explicit `ModalState` record, and event handlers become a
step function on that record.
-/

namespace ExportModal

/-- JavaScript `String.prototype.trim`: strip leading and trailing
whitespace.  Expressed over the string's character list so that it is
kernel-reducible on concrete inputs. -/
def jsTrim (s : String) : String :=
  String.mk
    (((s.data.dropWhile Char.isWhitespace).reverse.dropWhile
        Char.isWhitespace).reverse)

/-- JavaScript `String.prototype.includes` for a single-character needle,
as used in `name.includes('.')`. -/
def jsIncludesChar (s : String) (c : Char) : Bool :=
  s.data.contains c

/-- JavaScript `String.prototype.split` with a single-character
separator, over character lists: `split` always returns at least one
(possibly empty) group. -/
def splitOnChar (sep : Char) : List Char → List (List Char)
  | [] => [[]]
  | c :: cs =>
      if c = sep then
        [] :: splitOnChar sep cs
      else
        match splitOnChar sep cs with
        | [] => [[c]]
        | g :: gs => (c :: g) :: gs

/-- JavaScript `String.prototype.toLocaleLowerCase` restricted to its
ASCII behaviour, as used on extension strings. -/
def jsToLower (s : String) : String :=
  String.mk (s.data.map Char.toLower)

/-- The `inputType` prop: `'text' | 'password'`. -/
inductive InputType where
  | text
  | password
deriving DecidableEq, Repr

/-- One entry of the `preformattedExtensions` prop.  Both fields are
optional in the TypeScript type (`extension?: string`,
`description?: string`); `none` models an absent (undefined) field. -/
structure PreformattedExtension where
  extension : Option String
  description : Option String
deriving DecidableEq, Repr

/-- JavaScript truthiness of an optional string: `undefined` and the empty
string are falsy, every other string is truthy. -/
def optStringTruthy : Option String → Bool
  | none => false
  | some s => !(s == "")

/-- The props of `ExportModal` that take part in the logic under
verification.  Presentational string props (title, body, messages, button
labels) do not influence any of the claims and are omitted;
`inputPropsInvalid` models `inputProps?.invalid`. -/
structure Props where
  filename : String
  inputType : InputType
  preformattedExtensions : List PreformattedExtension
  validExtensions : List String
  loading : Bool
  error : Bool
  successful : Bool
  inputPropsInvalid : Bool
deriving DecidableEq, Repr

/-- The three `useState` fields of `ExportModal`:
`name` (the text-input value), `dirtyInput` (set once the input has
blurred), `extension` (the selected preformatted extension). -/
structure ModalState where
  name : String
  dirtyInput : Bool
  extension : String
deriving DecidableEq, Repr

/-- The initial values of the three `useState` calls:
`useState('')`, `useState(false)`, `useState('')`. -/
def initialState : ModalState :=
  { name := "", dirtyInput := false, extension := "" }

/-- `name.split('.').pop()`: the last group of the split, i.e. the
substring after the last `.` of the string (the whole string when it has
no `.`). -/
def afterLastDot (n : String) : String :=
  String.mk ((splitOnChar '.' n.data).getLastD [])

/-- The `hasInvalidExtension` closure of `ExportModal`:

```js
if (!dirtyInput || !validExtensions || !validExtensions.length) return false;
if (!name.includes('.')) return true;
const ext = name.split('.').pop();
if (!validExtensions.includes(ext)) return true;
return false;
```
-/
def hasInvalidExtension (dirtyInput : Bool) (name : String)
    (validExtensions : List String) : Bool :=
  if !dirtyInput || validExtensions.isEmpty then
    false
  else if !(jsIncludesChar name '.') then
    true
  else if !(validExtensions.contains (afterLastDot name)) then
    true
  else
    false

/-- `(inputType === 'text' ? !name?.trim() : !name)`: the name is
missing when its trim is empty (text mode) or when it is empty
(password mode). -/
def isNameMissing (inputType : InputType) (name : String) : Bool :=
  match inputType with
  | .text => jsTrim name == ""
  | .password => name == ""

/-- The `primaryButtonDisabled` constant of `ExportModal`:
`inputProps?.invalid || loading || (inputType === 'text' ? !name?.trim() :
!name) || hasInvalidExtension()`. -/
def primaryButtonDisabled (p : Props) (s : ModalState) : Bool :=
  p.inputPropsInvalid || p.loading || isNameMissing p.inputType s.name ||
    hasInvalidExtension s.dirtyInput s.name p.validExtensions

/-- Validity of the free-text input, i.e. the non-`loading`,
non-`inputProps.invalid` part of the enabling condition of the primary
button in text mode: the trimmed name is non-empty and
`hasInvalidExtension()` is false. -/
def freeTextValid (d : Bool) (n : String) (E : List String) : Bool :=
  !(jsTrim n == "") && !hasInvalidExtension d n E

end ExportModal

namespace ExportModal

/-- The `useEffect` of `ExportModal`, run when the dialog opens or the
`filename` / `preformattedExtensions` props change:

```js
setName(filename);
if (preformattedExtensions && preformattedExtensions.length > 0 &&
    preformattedExtensions[0]?.extension) {
  setExtension(preformattedExtensions?.[0]?.extension);
}
```

The `dirtyInput` field is not touched. -/
def runOpenEffect (filename : String)
    (preformattedExtensions : List PreformattedExtension)
    (s : ModalState) : ModalState :=
  let s1 := { s with name := filename }
  match preformattedExtensions with
  | [] => s1
  | o :: _ =>
      match o.extension with
      | some e => if e ≠ "" then { s1 with extension := e } else s1
      | none => s1

/-- The user- and prop-driven events that change the modal's state:
`onNameChangeHandler`, `onExtensionChangeHandler`, `onBlurHandler`, and
the open/prop-change effect. -/
inductive Event where
  | nameChange (value : String)
  | extensionChange (value : String)
  | blur
  | openWith (filename : String)
      (preformattedExtensions : List PreformattedExtension)
deriving DecidableEq, Repr

/-- One step of the modal's state machine, translating the four
handlers: `setName(evt.target.value)`, `setExtension(value)`,
`setDirtyInput(true)`, and the `useEffect` body. -/
def step (s : ModalState) : Event → ModalState
  | .nameChange v => { s with name := v }
  | .extensionChange v => { s with extension := v }
  | .blur => { s with dirtyInput := true }
  | .openWith f pfs => runOpenEffect f pfs s

/-- Run a sequence of events from a state. -/
def run (s : ModalState) (es : List Event) : ModalState :=
  es.foldl step s

/-- The `onSubmitHandler` of `ExportModal`: the value passed to
`onRequestSubmit` is

```js
const returnName = extension
  ? `${filename}.${extension.toLocaleLowerCase()}`
  : name;
```
-/
def onSubmitHandler (filename : String) (s : ModalState) : String :=
  if s.extension ≠ "" then
    filename ++ "." ++ jsToLower s.extension
  else
    s.name

/-- The `submitted` constant: `loading || error || successful`. -/
def submitted (p : Props) : Bool :=
  p.loading || p.error || p.successful

/-- The modal footer (and with it the primary submit button wired to
`onSubmitHandler`) is rendered only under `!submitted`. -/
def footerRendered (p : Props) : Bool :=
  !submitted p

/-- `onRequestSubmit` can only fire from a click on the primary button,
which requires the footer to be rendered and the button to be enabled. -/
def submitInvocable (p : Props) (s : ModalState) : Bool :=
  footerRendered p && !primaryButtonDisabled p s

/-- The part of `primaryButtonDisabled` that depends on the filename
alone: the name is missing or `hasInvalidExtension()` holds. -/
def filenameInvalid (p : Props) (s : ModalState) : Bool :=
  isNameMissing p.inputType s.name ||
    hasInvalidExtension s.dirtyInput s.name p.validExtensions

end ExportModal

namespace ExportModal

/-- C1. For every free-text filename `n`, permitted-extension list `E`
and dirty flag `d`: the input is valid iff `n` is non-empty after
trimming and, when `d` is true, either `E` is empty or `n` contains a `.`
and the substring after the final `.` of `n` is a member of `E`; when `d`
is false the extension membership check is skipped entirely. -/
theorem free_text_validity (n : String) (E : List String) (d : Bool) :
    freeTextValid d n E = true ↔
      (jsTrim n ≠ "" ∧ (d = true →
        (E = [] ∨ (jsIncludesChar n '.' = true ∧ afterLastDot n ∈ E)))) := by
  cases d with
  | false =>
      simp [freeTextValid, hasInvalidExtension]
  | true =>
      cases E with
      | nil =>
          simp [freeTextValid, hasInvalidExtension]
      | cons e es =>
          by_cases hc : jsIncludesChar n '.'
          · by_cases hm : afterLastDot n ∈ (e :: es)
            · simp [freeTextValid, hasInvalidExtension, hc, hm]
            · simp [freeTextValid, hasInvalidExtension, hc, hm]
          · simp [freeTextValid, hasInvalidExtension, hc]

/-- C2. The submit callback cannot be invoked while `loading`,
`error` or `successful` is true (the footer holding the submit button is
not rendered then), and the primary button is disabled whenever the
computed filename is invalid or `loading` is true. -/
theorem submit_gating (p : Props) (s : ModalState) :
    (submitInvocable p s = true →
      p.loading = false ∧ p.error = false ∧ p.successful = false) ∧
    (filenameInvalid p s = true ∨ p.loading = true →
      primaryButtonDisabled p s = true) := by
  constructor
  · intro h
    simp only [submitInvocable, footerRendered, submitted, Bool.and_eq_true,
      Bool.not_eq_true', Bool.or_eq_false_iff] at h
    exact ⟨h.1.1.1, h.1.1.2, h.1.2⟩
  · intro h
    rcases h with h | h
    · simp only [filenameInvalid, Bool.or_eq_true] at h
      simp [primaryButtonDisabled, h]
      rcases h with h | h <;> simp [h]
    · simp [primaryButtonDisabled, h]

/-- Witness for C2 at concrete inputs: a state in which the submit
button is clickable indeed has all three outcome flags false, and a
loading state indeed disables the primary button. -/
theorem submit_gating_witness :
    (Props.mk "report" .text [] [] false false false false).loading = false ∧
    (Props.mk "report" .text [] [] false false false false).error = false ∧
    (Props.mk "report" .text [] [] false false false false).successful = false ∧
    primaryButtonDisabled (Props.mk "report" .text [] [] true false false false)
      (ModalState.mk "report" false "") = true := by
  refine ⟨?_, ?_, ?_, ?_⟩
  · exact (submit_gating (Props.mk "report" .text [] [] false false false false)
      (ModalState.mk "report" false "")).1 (by decide) |>.1
  · exact (submit_gating (Props.mk "report" .text [] [] false false false false)
      (ModalState.mk "report" false "")).1 (by decide) |>.2.1
  · exact (submit_gating (Props.mk "report" .text [] [] false false false false)
      (ModalState.mk "report" false "")).1 (by decide) |>.2.2
  · exact (submit_gating (Props.mk "report" .text [] [] true false false false)
      (ModalState.mk "report" false "")).2 (Or.inr rfl)

/-- C3, counterexample. The claim quantifies over every non-empty
preformatted-extension list, but when the first option's `extension` is
the empty string the effect pre-selects nothing: after opening with
filename `"report"` and options `[{extension: ""}]`, the submitted value
is `"report"` (the raw name), not `"report" ++ "." ++ lowercase ""`. -/
theorem preformatted_default_counterexample :
    ([PreformattedExtension.mk (some "") (some "desc")] ≠
        ([] : List PreformattedExtension)) ∧
    onSubmitHandler "report"
        (runOpenEffect "report"
          [PreformattedExtension.mk (some "") (some "desc")] initialState) ≠
      "report" ++ "." ++ jsToLower "" := by
  constructor
  · decide
  · decide

/-- C3, amended. For every preformatted-extension list whose first
option's extension is a non-empty string `e`, opening the dialog (or a
`filename` prop change) pre-selects `e`, and the filename passed to the
submit callback equals the `filename` prop, followed by `.`, followed by
`e` lowercased. -/
theorem preformatted_default_and_submit (filename e : String)
    (d : Option String) (rest : List PreformattedExtension) (s : ModalState)
    (he : e ≠ "") :
    (runOpenEffect filename (PreformattedExtension.mk (some e) d :: rest)
        s).extension = e ∧
    onSubmitHandler filename
        (runOpenEffect filename (PreformattedExtension.mk (some e) d :: rest)
          s) =
      filename ++ "." ++ jsToLower e := by
  simp [runOpenEffect, onSubmitHandler, he]

/-- Witness for C3, amended: opening with options
`[{extension: "CSV"}]` pre-selects `"CSV"` and submits `"report.csv"`. -/
theorem preformatted_default_and_submit_witness :
    (runOpenEffect "report"
        [PreformattedExtension.mk (some "CSV") (some "desc")]
        initialState).extension = "CSV" ∧
    onSubmitHandler "report"
        (runOpenEffect "report"
          [PreformattedExtension.mk (some "CSV") (some "desc")]
          initialState) = "report" ++ "." ++ jsToLower "CSV" :=
  preformatted_default_and_submit "report" "CSV" (some "desc") [] initialState
    (by decide)

/-- C4, counterexample. The claim says reopening resets all three
fields, including `dirtyInput`, and the extension to the first option.
But the `useEffect` never writes `dirtyInput`, and skips the extension
when the first option's extension string is falsy: from the reachable
state obtained by a blur followed by selecting `"csv"`, reopening with
filename `"new"` and options `[{extension: ""}]` leaves `dirtyInput`
true and the extension `"csv"`. -/
theorem reopen_reset_counterexample :
    (runOpenEffect "new" [PreformattedExtension.mk (some "") none]
        (run initialState [Event.blur, Event.extensionChange "csv"])).dirtyInput
      = true ∧
    (runOpenEffect "new" [PreformattedExtension.mk (some "") none]
        (run initialState [Event.blur, Event.extensionChange "csv"])).extension
      = "csv" := by
  constructor
  · decide
  · decide

/-- C4, amended. Reopening the dialog with a new `filename` prop
resets the name state to the new filename and, when the first
preformatted option exists and has a non-empty extension string, the
selected extension to that string (otherwise the extension is left
unchanged); the dirty flag is never changed by the reopen effect. -/
theorem reopen_reset (f : String) (pfs : List PreformattedExtension)
    (s : ModalState) :
    (runOpenEffect f pfs s).name = f ∧
    (runOpenEffect f pfs s).dirtyInput = s.dirtyInput ∧
    (runOpenEffect f pfs s).extension =
      (match pfs with
       | [] => s.extension
       | o :: _ =>
           match o.extension with
           | some e => if e ≠ "" then e else s.extension
           | none => s.extension) := by
  match pfs with
  | [] => simp [runOpenEffect]
  | o :: rest =>
      match ho : o.extension with
      | some e =>
          by_cases he : e = "" <;> simp [runOpenEffect, ho, he]
      | none => simp [runOpenEffect, ho]

/-- The icons/messages rendered by the `__messaging` block of the modal
body. -/
inductive OutcomeMessage where
  | loadingIndicator
  | successCheckmark
  | errorIcon
deriving DecidableEq, Repr

/-- The `__messaging` block renders, independently of one another, the
loading spinner when `loading`, the checkmark when `successful`, and the
error icon when `error`. -/
def messagingShown (p : Props) : List OutcomeMessage :=
  (if p.loading then [OutcomeMessage.loadingIndicator] else []) ++
    (if p.successful then [OutcomeMessage.successCheckmark] else []) ++
      (if p.error then [OutcomeMessage.errorIcon] else [])

/-- C5, counterexample. The outcome is not represented as a single
enum: `loading`, `error` and `successful` are three independent boolean
props, so the combination with all three flags true is representable,
and the messaging block then renders all three messages at once. -/
theorem outcome_enum_counterexample :
    (Props.mk "f" InputType.text [] [] true true true false).loading = true ∧
    (Props.mk "f" InputType.text [] [] true true true false).error = true ∧
    (Props.mk "f" InputType.text [] [] true true true false).successful
      = true ∧
    messagingShown (Props.mk "f" InputType.text [] [] true true true false) =
      [OutcomeMessage.loadingIndicator, OutcomeMessage.successCheckmark,
        OutcomeMessage.errorIcon] := by
  refine ⟨rfl, rfl, rfl, rfl⟩

/-- C5, amended. The outcome is represented as three independent
boolean props `loading`, `error`, `successful`; every combination of the
three flags — including ones with more than one flag true — is
representable, and the component merely derives
`submitted = loading || error || successful` from them. -/
theorem outcome_flags_independent (l e s : Bool) :
    ∃ p : Props, p.loading = l ∧ p.error = e ∧ p.successful = s ∧
      submitted p = (l || e || s) :=
  ⟨Props.mk "" InputType.text [] [] l e s false, rfl, rfl, rfl, rfl⟩

/-- C8. Whenever a preformatted extension is selected (the
`extension` state is non-empty), the submitted filename is computed from
the `filename` prop: editing the text input (`nameChange`) does not
change the submitted value, which equals the `filename` prop followed by
`.` and the lowercased extension. -/
theorem preformatted_submit_ignores_name (filename v : String)
    (s : ModalState) (h : s.extension ≠ "") :
    onSubmitHandler filename (step s (Event.nameChange v)) =
        onSubmitHandler filename s ∧
    onSubmitHandler filename s = filename ++ "." ++ jsToLower s.extension := by
  constructor
  · simp [onSubmitHandler, step, h]
  · simp [onSubmitHandler, h]

/-- Witness for C8: with extension `"CSV"` selected, editing the name
does not change the submitted value `"report." ++ lowercase "CSV"`. -/
theorem preformatted_submit_ignores_name_witness :
    onSubmitHandler "report"
        (step (ModalState.mk "edited" false "CSV")
          (Event.nameChange "other")) =
      onSubmitHandler "report" (ModalState.mk "edited" false "CSV") ∧
    onSubmitHandler "report" (ModalState.mk "edited" false "CSV") =
      "report" ++ "." ++ jsToLower "CSV" :=
  preformatted_submit_ignores_name "report" "other"
    (ModalState.mk "edited" false "CSV") (by decide)

/-- C9. When the preformatted-extension list is non-empty but its
first entry's `extension` is falsy (absent or the empty string), opening
the dialog pre-selects nothing — the `extension` state stays `""` — and
submitting passes the raw name state (here: the last edited value) to
the callback instead of a dot-suffixed filename. -/
theorem falsy_first_extension_no_preselect (filename : String)
    (o : PreformattedExtension) (rest : List PreformattedExtension)
    (h : optStringTruthy o.extension = false) :
    (runOpenEffect filename (o :: rest) initialState).extension = "" ∧
    ∀ v, onSubmitHandler filename
        (step (runOpenEffect filename (o :: rest) initialState)
          (Event.nameChange v)) = v := by
  obtain ⟨oe, od⟩ := o
  cases oe with
  | none =>
      constructor
      · simp [runOpenEffect, initialState]
      · intro v
        simp [runOpenEffect, initialState, step, onSubmitHandler]
  | some e =>
      have he : e = "" := by
        simpa [optStringTruthy] using h
      subst he
      constructor
      · simp [runOpenEffect, initialState]
      · intro v
        simp [runOpenEffect, initialState, step, onSubmitHandler]

/-- Witness for C9: opening with options `[{}]` (no extension field)
leaves the selection empty and submits the edited name `"draft"`. -/
theorem falsy_first_extension_no_preselect_witness :
    (runOpenEffect "report" [PreformattedExtension.mk none none]
        initialState).extension = "" ∧
    onSubmitHandler "report"
        (step (runOpenEffect "report" [PreformattedExtension.mk none none]
            initialState)
          (Event.nameChange "draft")) = "draft" :=
  ⟨(falsy_first_extension_no_preselect "report"
      (PreformattedExtension.mk none none) [] (by decide)).1,
   (falsy_first_extension_no_preselect "report"
      (PreformattedExtension.mk none none) [] (by decide)).2 "draft"⟩

/-- Witness for C1: a dirty name `"report.csv"` against the
allow-list `["csv"]` is valid. -/
theorem free_text_validity_witness :
    freeTextValid true "report.csv" ["csv"] = true :=
  (free_text_validity "report.csv" ["csv"] true).mpr
    ⟨by decide, fun _ => Or.inr ⟨by decide, by decide⟩⟩

end ExportModal

namespace ModifiedTabs

/-- One entry of the `tabs` prop: `{ id, label, content }`. -/
structure TabEntry where
  id : String
  label : String
  content : String
deriving DecidableEq, Repr

/-- One `Tab` element produced by the render: either a user tab (whose
close affordance is wired to `handleClose(tab.id)`, recorded as
`closeTarget`) or the trailing `id="tab-new"` tab. -/
inductive RenderedTab where
  | user (id : String) (label : String) (content : String)
      (closeTarget : String)
  | create (label : String) (content : String)
deriving DecidableEq, Repr

/-- A host-callback invocation observed from the component. -/
inductive TabCallback where
  | createTab
  | closeTab (id : String)
deriving DecidableEq, Repr

/-- `handleNewTab`: `if (onNewTab) { ... onNewTab(); }` — the list of
host callbacks invoked, given whether the optional `onNewTab` prop is
defined.  The function is total: an absent callback yields no
invocation and no error. -/
def handleNewTab (onNewTabDefined : Bool) : List TabCallback :=
  if onNewTabDefined then [TabCallback.createTab] else []

/-- `handleClose(id)`: `if (onCloseTab) { onCloseTab(id); }` — the list
of host callbacks invoked, given whether the optional `onCloseTab` prop
is defined. -/
def handleClose (onCloseTabDefined : Bool) (id : String) :
    List TabCallback :=
  if onCloseTabDefined then [TabCallback.closeTab id] else []

/-- The render of `ModifiedTabs`: one `Tab` per entry of `tabs`, in
order, each with its close affordance wired to its own id, followed by
the `id="tab-new"` tab.  The trailing tab is unconditional (the
`onNewTab ? ... : ''` conditional around it is commented out in the
source), and the render does not depend on whether the callbacks are
supplied. -/
def renderModifiedTabs (tabs : List TabEntry)
    (newTabLabel newTabContent : String) : List RenderedTab :=
  tabs.map (fun t => RenderedTab.user t.id t.label t.content t.id) ++
    [RenderedTab.create newTabLabel newTabContent]

/-- C7. The strip renders exactly one tab per entry, in the array's
order (the i-th rendered tab is the i-th entry, with its close
affordance wired to its own id), followed by exactly one trailing
"new tab" entry rendered last and always present, and a close click on a
tab delegates that tab's id to the host's `onCloseTab` callback. -/
theorem tabs_render_shape (tabs : List TabEntry)
    (newTabLabel newTabContent : String) :
    ((renderModifiedTabs tabs newTabLabel newTabContent).length =
        tabs.length + 1) ∧
    ((renderModifiedTabs tabs newTabLabel newTabContent).getLast? =
        some (RenderedTab.create newTabLabel newTabContent)) ∧
    (∀ i, i < tabs.length →
      (renderModifiedTabs tabs newTabLabel newTabContent)[i]? =
        (tabs[i]?).map
          (fun t => RenderedTab.user t.id t.label t.content t.id)) ∧
    (∀ id, handleClose true id = [TabCallback.closeTab id]) := by
  refine ⟨?_, ?_, ?_, ?_⟩
  · simp [renderModifiedTabs]
  · simp [renderModifiedTabs, List.getLast?_concat]
  · intro i hi
    have hi2 :
        i < (tabs.map
          (fun t => RenderedTab.user t.id t.label t.content t.id)).length := by
      simpa using hi
    rw [renderModifiedTabs, List.getElem?_append, if_pos hi2,
      List.getElem?_map]
  · intro id
    simp [handleClose]

/-- Witness for C7 on a concrete two-tab strip. -/
theorem tabs_render_shape_witness :
    (renderModifiedTabs
        [TabEntry.mk "tab-1" "Tab 1" "c1", TabEntry.mk "tab-2" "Tab 2" "c2"]
        "New tab" "soon").length = 3 ∧
    (renderModifiedTabs
        [TabEntry.mk "tab-1" "Tab 1" "c1", TabEntry.mk "tab-2" "Tab 2" "c2"]
        "New tab" "soon").getLast? =
      some (RenderedTab.create "New tab" "soon") ∧
    (renderModifiedTabs
        [TabEntry.mk "tab-1" "Tab 1" "c1", TabEntry.mk "tab-2" "Tab 2" "c2"]
        "New tab" "soon")[1]? =
      some (RenderedTab.user "tab-2" "Tab 2" "c2" "tab-2") ∧
    handleClose true "tab-2" = [TabCallback.closeTab "tab-2"] := by
  have h := tabs_render_shape
    [TabEntry.mk "tab-1" "Tab 1" "c1", TabEntry.mk "tab-2" "Tab 2" "c2"]
    "New tab" "soon"
  exact ⟨h.1, h.2.1, by simpa using h.2.2.1 1 (by decide), h.2.2.2 "tab-2"⟩

/-- C10. When the optional `onNewTab` / `onCloseTab` callback props
are undefined, activating the new-tab or close affordance invokes no
callback; both handlers are total functions, so no error is raised. -/
theorem absent_callbacks_noop :
    handleNewTab false = [] ∧ ∀ id, handleClose false id = [] := by
  constructor
  · simp [handleNewTab]
  · intro id
    simp [handleClose]

end ModifiedTabs

namespace TagOverflow

/-- A tag shown in the overflow toggletip; only its label matters to the
claims. -/
structure Tag where
  label : String
deriving DecidableEq, Repr

/-- Modelled from the spec: the `TagOverflow` implementation is not among
the sources — only its documentation (`TagOverflow.mdx`) is.  Per that
documentation, clicking the overflow count badge "presents a toggletip
that lists up to 10 additional tags": the toggletip shows the first 10
of the overflow tags. -/
def toggletipVisibleTags (overflowTags : List Tag) : List Tag :=
  overflowTags.take 10

/-- Modelled from the spec: "If there are more than 10 additional tags,
the toggletip also includes a link to view all tags", which opens a
modal with the full list. -/
def toggletipShowsViewAll (overflowTags : List Tag) : Bool :=
  decide (10 < overflowTags.length)

/-- C6. The overflow toggletip lists at most 10 entries, and it
shows the "view all" affordance exactly when the number of overflow tags
exceeds 10. -/
theorem overflow_toggletip_cap (overflowTags : List Tag) :
    (toggletipVisibleTags overflowTags).length ≤ 10 ∧
    (toggletipShowsViewAll overflowTags = true ↔
      10 < overflowTags.length) := by
  constructor
  · simp only [toggletipVisibleTags, List.length_take]
    omega
  · simp [toggletipShowsViewAll]

/-- Witness for C6 on a concrete collection of 12 overflow tags. -/
theorem overflow_toggletip_cap_witness :
    (toggletipVisibleTags (List.replicate 12 (Tag.mk "t"))).length ≤ 10 ∧
    toggletipShowsViewAll (List.replicate 12 (Tag.mk "t")) = true :=
  ⟨(overflow_toggletip_cap (List.replicate 12 (Tag.mk "t"))).1,
   (overflow_toggletip_cap (List.replicate 12 (Tag.mk "t"))).2.mpr
     (by decide)⟩

end TagOverflow
